import Mathlib

/-!
Verification development for the SMSNotifier plugin (src/main.py,
src/stderr_monitor.py): a shallow embedding of its health-detection and
notification-deduplication engine, followed by theorems about the embedded
operations. Timestamps are modelled as integers (seconds); Python
dictionaries keyed by wxid are modelled as association lists when key
order or length is observed by the code, and as functions into `Option`
when only lookup and update are.
-/

namespace SMSNotifier

/-! ### String helpers mirroring the Python primitives used by the plugin -/

/-- Python `str.strip()` on the whitespace the plugin encounters: drop
leading and trailing whitespace characters. -/
def pyStrip (s : String) : String :=
  String.mk (((s.data.dropWhile Char.isWhitespace).reverse.dropWhile Char.isWhitespace).reverse)

/-- One step of whitespace-tokenisation, from the right: whitespace flushes
the token being built, any other character extends it. -/
def pySplitAux (c : Char) (acc : List Char × List String) : List Char × List String :=
  if c.isWhitespace then ([], if acc.1 = [] then acc.2 else String.mk acc.1 :: acc.2)
  else (c :: acc.1, acc.2)

/-- Python `str.split()` with no separator: split on runs of whitespace,
discarding empty tokens. -/
def pySplit (s : String) : List String :=
  let out := s.data.foldr pySplitAux ([], [])
  if out.1 = [] then out.2 else String.mk out.1 :: out.2

/-- Python `str.startswith(pat)`. -/
def pyStartsWith (s pat : String) : Bool :=
  pat.data.isPrefixOf s.data

/-- Python `str.lower()` on the ASCII the plugin compares (the markers
`"token"`, `"ok"`, `"title"` and friends). -/
def pyLower (s : String) : String :=
  String.mk (s.data.map Char.toLower)

/-- Python `str.split(maxsplit=2)` on an already-stripped string: at most two
splits; the remainder keeps its interior whitespace. -/
def pySplitMax2 (s : String) : List String :=
  let l := s.data.dropWhile Char.isWhitespace
  if l = [] then []
  else
    let t1 := l.takeWhile (fun c => !c.isWhitespace)
    let r1 := (l.dropWhile (fun c => !c.isWhitespace)).dropWhile Char.isWhitespace
    if r1 = [] then [String.mk t1]
    else
      let t2 := r1.takeWhile (fun c => !c.isWhitespace)
      let r2 := (r1.dropWhile (fun c => !c.isWhitespace)).dropWhile Char.isWhitespace
      if r2 = [] then [String.mk t1, String.mk t2]
      else [String.mk t1, String.mk t2, String.mk r2]

/-- Whether `pat` occurs as a contiguous sublist of `s` (Python's `in` on
strings, on the character list). -/
def subList (pat : List Char) : List Char → Bool
  | [] => pat.isEmpty
  | c :: rest => pat.isPrefixOf (c :: rest) || subList pat rest

/-- Python `pat in s` for strings. -/
def containsSub (s pat : String) : Bool :=
  subList pat.data s.data

/-! ### FailureAggregator (src/main.py, `heartbeat_failure_callback`,
lines 1171-1186)

`failure_count[wxid].append(current_time)` followed by
`failure_count[wxid] = [t for t in failure_count[wxid] if current_time - t <= 300]`. -/

/-- Append the new failure timestamp, then prune entries older than the
300-second trailing window (src/main.py lines 1176-1179). -/
def recordFailure (rec : List Int) (now : Int) : List Int :=
  (rec ++ [now]).filter (fun t => now - t ≤ 300)

/-- The threshold test `len(failure_count[wxid]) >= self.heartbeat_threshold`
(src/main.py line 1186). -/
def isOverThreshold (threshold : Nat) (rec : List Int) : Bool :=
  decide (threshold ≤ rec.length)

/-! ### NotificationGate state (the local dictionaries of
`_check_api_heartbeat`: `failure_count` and `last_notification_time`).
A wxid absent from `failure_count` behaves as the empty list (the code
initialises missing keys to `[]`), so the record map is total; absence
from `last_notification_time` is observable (`wxid not in ...`), so that
map is into `Option`. -/

structure GateState where
  failureCount : String → List Int
  lastNotificationTime : String → Option Int

/-- The gate state before any signal has been processed. -/
def gateInit : GateState :=
  { failureCount := fun _ => [], lastNotificationTime := fun _ => none }

/-- The gate test `wxid not in last_notification_time or current_time - last >= 3600`
(src/main.py line 1188). -/
def gateOpen (st : GateState) (wxid : String) (now : Int) : Bool :=
  match st.lastNotificationTime wxid with
  | none => true
  | some last => decide (3600 ≤ now - last)

/-- The decision of the gated callback: over threshold after recording, and
the resend-interval gate is open (src/main.py lines 1186-1188). -/
def shouldNotify (threshold : Nat) (st : GateState) (wxid : String) (now : Int) : Bool :=
  isOverThreshold threshold (recordFailure (st.failureCount wxid) now) && gateOpen st wxid now

/-- One invocation of `heartbeat_failure_callback` (src/main.py lines
1164-1202).  `sendOk` is the result of `_send_pushplus_notification`.
Returns the updated gate state and whether a successful delivery was made. -/
def callbackStep (threshold : Nat) (users : List (String × String)) (st : GateState)
    (wxid : String) (now : Int) (sendOk : Bool) : GateState × Bool :=
  if (users.lookup wxid).isNone then (st, false)
  else
    let rec1 := recordFailure (st.failureCount wxid) now
    let stRec : GateState := { st with failureCount := Function.update st.failureCount wxid rec1 }
    if isOverThreshold threshold rec1 then
      if gateOpen st wxid now then
        if sendOk then
          ({ failureCount := Function.update st.failureCount wxid [],
             lastNotificationTime := Function.update st.lastNotificationTime wxid (some now) },
           true)
        else (stRec, false)
      else (stRec, false)
    else (stRec, false)

/-! ### Whole-system delivery model

Successful deliveries are recorded in a log of `(wxid, timestamp, gated)`
triples; `gated = true` marks a delivery made through one of the two
interval-gated paths inside `_check_api_heartbeat` (the log-handler
callback and the API status check), `gated = false` a delivery made through
the ungated `_process_heartbeat_failure` path reached from passive event
ingestion (`capture_error_messages`) and from the probe loop
(`_check_users`).  The manual test path (`_send_test_message`) does not
enter this log, matching the claim's exception for it.  The `offline_users`
re-notify branch of `_check_users` is unreachable (nothing ever inserts
into `offline_users`), so it has no event. -/

structure SysState where
  gate : GateState
  log : List (String × Int × Bool)

inductive SysEvent
  /-- A failure marker seen by `capture_error_messages` and attributed to
  `wxid` (src/main.py lines 916-1054): calls `_process_heartbeat_failure`. -/
  | passive (wxid : String) (now : Int) (sendOk : Bool)
  /-- A heartbeat failure in the probe loop `_check_users`
  (src/main.py lines 569-577): calls `_process_heartbeat_failure`. -/
  | probe (wxid : String) (now : Int) (sendOk : Bool)
  /-- One firing of `heartbeat_failure_callback`
  (src/main.py lines 1164-1202). -/
  | logCallback (wxid : String) (now : Int) (sendOk : Bool)
  /-- One iteration of the API status check observing a non-ok status
  (src/main.py lines 1228-1246): for every monitored user whose gate is
  open, deliver via `_process_heartbeat_failure` and stamp
  `last_notification_time` regardless of the delivery's outcome. -/
  | apiBad (now : Int) (sendOk : Bool)

/-- Model of `_process_heartbeat_failure` (src/main.py lines 1056-1068): if the wxid
is monitored, send at once — no threshold, no interval gate, and no state
update; a successful send is appended to the delivery log with tag `tag`. -/
def processHeartbeatFailure (users : List (String × String)) (tag : Bool) (st : SysState)
    (wxid : String) (now : Int) (sendOk : Bool) : SysState :=
  if (users.lookup wxid).isSome && sendOk then
    { st with log := st.log ++ [(wxid, now, tag)] }
  else st

/-- The body of the API-failure loop for one monitored user
(src/main.py lines 1232-1236 and 1242-1246). -/
def apiUserStep (users : List (String × String)) (now : Int) (sendOk : Bool)
    (st : SysState) (wxid : String) : SysState :=
  if gateOpen st.gate wxid now then
    let st1 := processHeartbeatFailure users true st wxid now sendOk
    { st1 with
      gate := { st1.gate with
        lastNotificationTime := Function.update st1.gate.lastNotificationTime wxid (some now) } }
  else st

/-- One event of the concurrent system: probe loop, status-poll loop or
passive ingestion. -/
def sysStep (threshold : Nat) (users : List (String × String)) (st : SysState) :
    SysEvent → SysState
  | SysEvent.passive w n ok => processHeartbeatFailure users false st w n ok
  | SysEvent.probe w n ok => processHeartbeatFailure users false st w n ok
  | SysEvent.logCallback w n ok =>
      let out := callbackStep threshold users st.gate w n ok
      { gate := out.1, log := if out.2 then st.log ++ [(w, n, true)] else st.log }
  | SysEvent.apiBad n ok => users.foldl (fun acc p => apiUserStep users n ok acc p.1) st

/-- Run an execution (an arbitrary interleaving of events) from the initial
state. -/
def sysRun (threshold : Nat) (users : List (String × String)) (evs : List SysEvent) : SysState :=
  evs.foldl (sysStep threshold users) { gate := gateInit, log := [] }

/-- The spacing relation of the at-most-one-notification-per-window claim:
two deliveries for the same entity are at least 3600 seconds apart. -/
def spacedRel (p q : String × Int × Bool) : Prop :=
  p.1 = q.1 → p.2.1 + 3600 ≤ q.2.1

/-- Spacing restricted to the deliveries made through an interval-gated
path. -/
def gatedSpacedRel (p q : String × Int × Bool) : Prop :=
  p.2.2 = true → q.2.2 = true → p.1 = q.1 → p.2.1 + 3600 ≤ q.2.1

instance : DecidableRel spacedRel := fun p q => by unfold spacedRel; infer_instance

instance : DecidableRel gatedSpacedRel := fun p q => by unfold gatedSpacedRel; infer_instance

/-- The inductive invariant behind interval-gated spacing: gated entries of
the delivery log are pairwise spaced, and each one is dominated by the
stored last-notification timestamp of its entity. -/
def GoodLog (gate : GateState) (log : List (String × Int × Bool)) : Prop :=
  log.Pairwise gatedSpacedRel ∧
  ∀ w t, (w, t, true) ∈ log → ∃ l, gate.lastNotificationTime w = some l ∧ t ≤ l

/-! ### DeliveryClient (`_send_pushplus_notification`, src/main.py lines
589-645)

One HTTP attempt either raises (transport exception) or yields a parsed
JSON body with a `code` and a `msg`. -/

inductive PushResp
  | exn
  | json (code : Int) (msg : String)

/-- The terminal-error test of src/main.py line 630:
`"token" in error_msg.lower() and "用户" in error_msg`. -/
def isTokenError (msg : String) : Bool :=
  containsSub (pyLower msg) "token" && containsSub msg "用户"

/-- An attempt outcome that makes the loop retry: a transport exception, or
a well-formed body whose code is not 200 and whose message is not the
recognised token error. -/
def isTransient : PushResp → Bool
  | PushResp.exn => true
  | PushResp.json c msg => decide (c ≠ 200) && !isTokenError msg

/-- The retry loop of `_send_pushplus_notification`: `i` is the index of the
next attempt, the second argument the number of loop iterations left.
Returns (success, number of HTTP attempts performed, the list of
inter-attempt waits — one `retryInterval` entry per sleep). -/
def sendGo (responses : Nat → PushResp) (retryInterval : Int) : Nat → Nat → Bool × Nat × List Int
  | _, 0 => (false, 0, [])
  | i, r + 1 =>
    let next : Bool × Nat × List Int :=
      match r with
      | 0 => (false, 1, [])
      | _ + 1 =>
        let out := sendGo responses retryInterval (i + 1) r
        (out.1, out.2.1 + 1, retryInterval :: out.2.2)
    match responses i with
    | PushResp.exn => next
    | PushResp.json c msg =>
      if c = 200 then (true, 1, [])
      else if isTokenError msg then (false, 1, [])
      else next

/-- Model of `_send_pushplus_notification` (src/main.py lines 589-645): an empty
token aborts before any attempt; otherwise run the bounded retry loop. -/
def sendPushplusNotification (token : String) (retryTimes : Nat) (retryInterval : Int)
    (responses : Nat → PushResp) : Bool × Nat × List Int :=
  if token = "" then (false, 0, [])
  else sendGo responses retryInterval 0 retryTimes

/-! ### ExternalStatusPoll (`_check_api_heartbeat`, src/main.py lines
1217-1248) -/

inductive PollObservation
  /-- The GET completed with an HTTP status and a body. -/
  | httpResp (status : Nat) (body : String)
  /-- The GET raised (transport error or timeout). -/
  | transportError

inductive PollResult
  | healthy
  | failed
  | unknown
deriving DecidableEq

/-- Classification of one poll of `GET <base>/IsRunning`: status 200 with
`result_text.strip().lower() != "ok"` false is healthy; a non-ok stripped
body or a non-200 status is failed; an exception is unknown (src/main.py
lines 1220-1248). -/
def classifyPoll : PollObservation → PollResult
  | PollObservation.httpResp status body =>
      if status = 200 then
        if pyLower (pyStrip body) ≠ "ok" then PollResult.failed else PollResult.healthy
      else PollResult.failed
  | PollObservation.transportError => PollResult.unknown

/-- Whether the poll produces a failure signal (the notification loop over
`self.users` runs exactly in the failed branches). -/
def producesFailureSignal (obs : PollObservation) : Bool :=
  match classifyPoll obs with
  | PollResult.failed => true
  | _ => false

/-- Modelled from the spec's words, for comparison with `classifyPoll`: the
claim's failure condition is HTTP status not 200, or the body not exactly
the literal token "ok" compared case-insensitively (no whitespace
stripping). -/
def specPollFailed : PollObservation → Bool
  | PollObservation.httpResp status body =>
      decide (status ≠ 200) || decide (pyLower body ≠ "ok")
  | PollObservation.transportError => false

/-! ### PassiveTextEvent attribution (`capture_error_messages`)

`extracted` is the result of `re.search(r'wxid_\w+', content)`.  The two
fallback chains the code uses when nothing is extractable: -/

/-- Attribution of a system message (src/main.py lines 959-978): the regex
match first, else the configured `current_wxid` when non-empty, else the
single monitored user when exactly one exists, else no signal. -/
def attributeSystemEvent (currentWxid : String) (users : List (String × String))
    (extracted : Option String) : Option String :=
  match extracted with
  | some w => some w
  | none =>
    if currentWxid ≠ "" then some currentWxid
    else
      match users with
      | [p] => some p.1
      | _ => none

/-- Attribution of a "获取新消息失败" event (src/main.py lines 1036-1050):
`current_wxid` when set and itself monitored, else the single monitored
user, else no signal. -/
def attributeFetchFail (currentWxid : String) (users : List (String × String)) :
    Option String :=
  if currentWxid ≠ "" && (users.lookup currentWxid).isSome then some currentWxid
  else
    match users with
    | [p] => some p.1
    | _ => none

/-- Modelled from the spec's words, for comparison: when no identifier is
extractable, fall back first to the single currently-monitored entity if
exactly one exists, otherwise to the globally-configured primary entity,
otherwise discard. -/
def attributeSpecOrder (currentWxid : String) (users : List (String × String))
    (extracted : Option String) : Option String :=
  match extracted with
  | some w => some w
  | none =>
    match users with
    | [p] => some p.1
    | _ => if currentWxid ≠ "" then some currentWxid else none

/-! ### Plugin state and the administrative command handlers

The modelled fields are the monitoring configuration and per-entity state
of the `SMSNotifier` instance (src/main.py lines 79-103 and the defaults of
`_load_config`).  The saved chat-session handle (`self.bot`) is an external
capability reference, not data, and the config file on disk is an external
collaborator; neither is part of the modelled state. -/

structure PluginState where
  enable : Bool
  currentWxid : String
  users : List (String × String)
  offlineUsers : List String
  notificationSent : List (String × Int)
  heartbeatFailures : List (String × List Int)
  pushplusToken : String
  pushplusChannel : String
  pushplusTemplate : String
  pushplusTopic : String
  titleTemplate : String
  contentTemplate : String
  testTitleTemplate : String
  testContentTemplate : String
deriving DecidableEq

/-- The instance state right after `__init__` and a config-less
`_load_config` (src/main.py lines 79-158). -/
def initialState : PluginState :=
  { enable := false
    currentWxid := ""
    users := []
    offlineUsers := []
    notificationSent := []
    heartbeatFailures := []
    pushplusToken := ""
    pushplusChannel := "wechat"
    pushplusTemplate := "html"
    pushplusTopic := ""
    titleTemplate := "微信离线通知 - {time}"
    contentTemplate := ""
    testTitleTemplate := "测试通知 - {time}"
    testContentTemplate := "" }

/-- An entity is monitored exactly when its wxid is a key of `self.users`
(every recording operation tests `wxid in self.users`). -/
def isMonitored (st : PluginState) (wxid : String) : Bool :=
  (st.users.lookup wxid).isSome

/-- Python dict assignment `d[k] = v`: overwrite in place, or append a new
key at the end. -/
def dictInsert (d : List (String × String)) (k v : String) : List (String × String) :=
  if (d.lookup k).isSome then d.map (fun p => if p.1 = k then (k, v) else p)
  else d ++ [(k, v)]

/-- Model of `_format_message_template` (src/main.py lines 233-252): the time-derived
replacement values are passed in, since they come from the wall clock. -/
def formatMessageTemplate (tmpl wxid timeStr dateStr hourStr botName botWxid : String) :
    String :=
  (((((tmpl.replace "{wxid}" wxid).replace "{time}" timeStr).replace "{date}" dateStr).replace
      "{hour}" hourStr).replace "{bot_name}" botName).replace "{bot_wxid}" botWxid

/-- The rejection reply every admin-gated handler sends to an unauthorized
sender. -/
def rejectText : String := "您没有权限执行此命令"

/-- The JSON body `_send_test_message` posts to the push endpoint. -/
structure PushRequest where
  token : String
  title : String
  content : String
  template : String
  channel : String
  toUser : Option String
  topic : Option String
deriving DecidableEq

/-- Model of `_send_test_message` (src/main.py lines 799-843): build the request from
the templates and configuration, post it once, succeed exactly on a body
with code 200 (`respCode` is `result.get('code')`, `none` covering both a
missing code and a raised exception).  The instance state is returned
unchanged. -/
def sendTestMessage (st : PluginState) (wxid : String)
    (timeStr dateStr hourStr botName : String) (respCode : Option Int) :
    PluginState × PushRequest × Bool :=
  let toTarget := (st.users.lookup wxid).getD ""
  let title := formatMessageTemplate st.testTitleTemplate wxid timeStr dateStr hourStr botName
    st.currentWxid
  let contentBody := formatMessageTemplate st.testContentTemplate wxid timeStr dateStr hourStr
    botName st.currentWxid
  let req : PushRequest :=
    { token := st.pushplusToken
      title := title
      content := contentBody
      template := st.pushplusTemplate
      channel := st.pushplusChannel
      toUser := if toTarget ≠ "" && st.pushplusChannel = "wechat" then some toTarget else none
      topic := if st.pushplusTopic ≠ "" then some st.pushplusTopic else none }
  (st, req, decide (respCode = some 200))

/-! ### Administrative command handlers

Each handler takes the raw message `Content`, the sender wxid, the reply
target (`FromWxid`) and the result of the external authorization check
`is_admin(sender)`.  It returns the updated plugin state and the list of
`(target, text)` replies it sends.  Network and file-system effects are
passed in as parameters (`sendOk` for a test delivery's outcome, `loadCfg`
for `_load_config`, `fmtTime` for timestamp rendering). -/

/-- Model of `handle_test_command` (src/main.py lines 357-394). -/
def handleTestCommand (st : PluginState) (content sender fromWxid : String)
    (isAdmin sendOk : Bool) : PluginState × List (String × String) :=
  if st.enable = false then (st, [])
  else
    let c := pyStrip content
    if pyStartsWith c "sms_test" = false then (st, [])
    else if isAdmin = false then (st, [(fromWxid, rejectText)])
    else
      let st1 :=
        if st.currentWxid = "" then
          { st with currentWxid := sender, users := dictInsert st.users sender "" }
        else st
      let wxid := st1.currentWxid
      if wxid = "" then
        (st1, [(fromWxid, "未能获取当前微信ID，请在配置文件中手动设置current_wxid")])
      else if sendOk then
        (st1, [(fromWxid, "测试通知已成功发送，wxid=" ++ wxid ++ "，渠道: " ++ st1.pushplusChannel)])
      else (st1, [(fromWxid, "发送测试通知失败，wxid=" ++ wxid)])

/-- Model of `handle_set_wxid_command` (src/main.py lines 396-504).  The config file
rewrite is an external effect; the trailing test delivery's outcome is
`sendOk`. -/
def handleSetWxidCommand (st : PluginState) (content sender fromWxid : String)
    (isAdmin sendOk : Bool) : PluginState × List (String × String) :=
  if st.enable = false then (st, [])
  else
    let c := pyStrip content
    if pyStartsWith c "sms_set_wxid " = false then (st, [])
    else if isAdmin = false then (st, [(fromWxid, rejectText)])
    else
      match pySplit c with
      | _ :: wxid :: _ =>
        let oldWxid := st.currentWxid
        let st1 := { st with
          currentWxid := wxid
          users := dictInsert (st.users.filter (fun p => p.1 ≠ oldWxid)) wxid "" }
        (st1,
          [(fromWxid, "已成功将当前微信ID从 " ++ (if oldWxid = "" then "未设置" else oldWxid)
              ++ " 更改为 " ++ wxid),
           (fromWxid, "正在发送测试通知..."),
           (fromWxid, if sendOk then "测试通知发送成功" else "测试通知发送失败")])
      | _ => (st, [(fromWxid, "用法: sms_set_wxid <wxid>")])

/-- Model of `handle_reload_command` (src/main.py lines 647-676).  `loadCfg` is the
effect of `_load_config` on the state; task start/stop is scheduling, not
state. -/
def handleReloadCommand (st : PluginState) (content sender fromWxid : String)
    (isAdmin : Bool) (loadCfg : PluginState → PluginState) :
    PluginState × List (String × String) :=
  if st.enable = false then (st, [])
  else
    let c := pyStrip content
    if c ≠ "sms_reload" then (st, [])
    else if isAdmin = false then (st, [(fromWxid, rejectText)])
    else
      let st1 := loadCfg st
      (st1, [(fromWxid, "SMSNotifier配置已重新加载，插件现在"
          ++ (if st1.enable then "已启用" else "已禁用"))])

/-- The report text of `handle_status_command` (src/main.py lines 697-714). -/
def statusText (st : PluginState) (fmtTime : Int → String) : String :=
  let base := "SMSNotifier状态报告：\n"
    ++ "启用状态: " ++ (if st.enable then "已启用" else "已禁用") ++ "\n"
    ++ "通知渠道: " ++ st.pushplusChannel ++ "\n"
    ++ "监控用户数: " ++ toString st.users.length ++ "\n"
    ++ "离线用户数: " ++ toString st.offlineUsers.length ++ "\n"
    ++ "已发送通知用户数: " ++ toString st.notificationSent.length ++ "\n"
    ++ "\n离线用户列表:\n"
  if st.offlineUsers.isEmpty then base ++ "无离线用户\n"
  else base ++ String.join (st.offlineUsers.map (fun w =>
    "- " ++ w
      ++ (match st.notificationSent.lookup w with
          | some ts => " (已通知于 " ++ fmtTime ts ++ ")"
          | none => "")
      ++ "\n"))

/-- Model of `handle_status_command` (src/main.py lines 678-716). -/
def handleStatusCommand (st : PluginState) (content sender fromWxid : String)
    (isAdmin : Bool) (fmtTime : Int → String) : PluginState × List (String × String) :=
  if st.enable = false then (st, [])
  else
    let c := pyStrip content
    if c ≠ "sms_status" then (st, [])
    else if isAdmin = false then (st, [(fromWxid, rejectText)])
    else (st, [(fromWxid, statusText st fmtTime)])

/-- Model of `handle_monitor_command` (src/main.py lines 845-878).  The arity guard
only rejects fewer than 2 tokens, while the body reads `parts[2]`; the
`Except.error` value models the uncaught `IndexError` that escapes the
handler when exactly 2 tokens are present. -/
def handleMonitorCommand (st : PluginState) (content sender fromWxid : String)
    (isAdmin : Bool) : Except String (PluginState × List (String × String)) :=
  if st.enable = false then Except.ok (st, [])
  else
    let c := pyStrip content
    if pyStartsWith c "sms_monitor " = false then Except.ok (st, [])
    else if isAdmin = false then Except.ok (st, [(fromWxid, rejectText)])
    else
      let parts := pySplit c
      if parts.length < 2 then Except.ok (st, [(fromWxid, "用法: sms_monitor <wxid> <to>")])
      else
        match parts.get? 1, parts.get? 2 with
        | some wxid, some toTarget =>
          if (st.users.lookup wxid).isSome then
            Except.ok (st, [(fromWxid, "用户 " ++ wxid ++ " 已存在于监控列表中")])
          else
            Except.ok ({ st with users := dictInsert st.users wxid toTarget },
              [(fromWxid, "已成功将用户 " ++ wxid ++ " 添加到监控列表，使用接收者 " ++ toTarget
                  ++ "，渠道: " ++ st.pushplusChannel)])
        | _, _ => Except.error "IndexError"

/-- Model of `handle_channel_command` (src/main.py lines 880-914). -/
def handleChannelCommand (st : PluginState) (content sender fromWxid : String)
    (isAdmin : Bool) : PluginState × List (String × String) :=
  if st.enable = false then (st, [])
  else
    let c := pyStrip content
    if pyStartsWith c "sms_channel " = false then (st, [])
    else if isAdmin = false then (st, [(fromWxid, rejectText)])
    else
      match pySplit c with
      | _ :: channel :: _ =>
        let oldChannel := st.pushplusChannel
        if (["wechat", "sms", "mail", "webhook", "cp"].contains channel) = false then
          (st, [(fromWxid, "不支持的渠道: " ++ channel
              ++ "\n支持的渠道: wechat, sms, mail, webhook, cp")])
        else
          ({ st with pushplusChannel := channel },
            [(fromWxid, "已成功将通知渠道从 " ++ oldChannel ++ " 更改为 " ++ channel)])
      | _ => (st, [(fromWxid, "用法: sms_channel <channel>\n支持的渠道: wechat, sms, mail, webhook, cp")])

/-- Model of `handle_unmonitor_command` (src/main.py lines 1273-1309). -/
def handleUnmonitorCommand (st : PluginState) (content sender fromWxid : String)
    (isAdmin : Bool) : PluginState × List (String × String) :=
  if st.enable = false then (st, [])
  else
    let c := pyStrip content
    if pyStartsWith c "sms_unmonitor " = false then (st, [])
    else if isAdmin = false then (st, [(fromWxid, rejectText)])
    else
      match pySplit c with
      | _ :: wxid :: _ =>
        if (st.users.lookup wxid).isSome = false then
          (st, [(fromWxid, "用户 " ++ wxid ++ " 不存在于监控列表中")])
        else
          ({ st with
              users := st.users.filter (fun p => p.1 ≠ wxid)
              offlineUsers := st.offlineUsers.filter (fun w => w ≠ wxid) },
            [(fromWxid, "已成功将用户 " ++ wxid ++ " 从监控列表中移除")])
      | _ => (st, [(fromWxid, "用法: sms_unmonitor <wxid>")])

/-- Model of `handle_message_template_command` (src/main.py lines 1311-1367).  The
example reply formats the new template with the wall clock, so the
time-derived strings are parameters; `_save_message_templates` writes the
config file, an external effect. -/
def handleTemplateCommand (st : PluginState) (content sender fromWxid : String)
    (isAdmin : Bool) (timeStr dateStr hourStr botName : String) :
    PluginState × List (String × String) :=
  if st.enable = false then (st, [])
  else
    let c := pyStrip content
    if pyStartsWith c "sms_template " = false then (st, [])
    else if isAdmin = false then (st, [(fromWxid, rejectText)])
    else
      match pySplitMax2 c with
      | [_, ttype0, tcontent] =>
        let ttype := pyLower ttype0
        let out :=
          if ttype = "title" then
            ({ st with titleTemplate := tcontent },
              (fromWxid, "已更新通知标题模板为:\n" ++ tcontent))
          else if ttype = "content" then
            ({ st with contentTemplate := tcontent },
              (fromWxid, "已更新通知内容模板为:\n" ++ tcontent))
          else if ttype = "test_title" then
            ({ st with testTitleTemplate := tcontent },
              (fromWxid, "已更新测试通知标题模板为:\n" ++ tcontent))
          else if ttype = "test_content" then
            ({ st with testContentTemplate := tcontent },
              (fromWxid, "已更新测试通知内容模板为:\n" ++ tcontent))
          else
            (st, (fromWxid, "未知的模板类型: " ++ ttype
                ++ "\n支持的类型: title, content, test_title, test_content"))
        let exampleText := formatMessageTemplate tcontent st.currentWxid timeStr dateStr hourStr
          botName st.currentWxid
        (out.1, [out.2, (fromWxid, "模板示例效果:\n" ++ exampleText)])
      | _ =>
        (st, [(fromWxid, "用法: \nsms_template title 新标题模板\nsms_template content 新内容模板\n\n可用变量: {wxid}, {time}, {date}, {hour}, {bot_name}, {bot_wxid}")])

/-- A plugin state with the monitoring subsystem enabled, used to evaluate
the handlers at concrete inputs. -/
def enabledState : PluginState :=
  { initialState with enable := true }

/-- A concrete state holding every kind of per-entity record for
`"wxid_a"`. -/
def c6State : PluginState :=
  { initialState with
      enable := true
      users := [("wxid_a", "")]
      offlineUsers := ["wxid_a"]
      notificationSent := [("wxid_a", 100)]
      heartbeatFailures := [("wxid_a", [1, 2, 3])] }

/-! ## Theorems -/

lemma lookup_isNone_false {users : List (String × String)} {w : String}
    (h : (users.lookup w).isSome = true) : (users.lookup w).isNone = false := by
  cases hu : users.lookup w <;> simp [hu] at h ⊢

/-- The gate condition unfolded over the stored timestamp. -/
lemma gateOpen_iff (st : GateState) (wxid : String) (now : Int) :
    gateOpen st wxid now = true ↔
      (st.lastNotificationTime wxid = none ∨
        ∃ last, st.lastNotificationTime wxid = some last ∧ 3600 ≤ now - last) := by
  unfold gateOpen
  cases h : st.lastNotificationTime wxid <;> simp [h]

/-- Behaviour of `heartbeat_failure_callback` for a monitored wxid, as one conditional:
deliver and reset exactly when the decision holds and the send succeeds;
otherwise only the pruned-and-extended failure record is kept. -/
lemma callbackStep_characterize (threshold : Nat) (users : List (String × String))
    (st : GateState) (w : String) (n : Int) (ok : Bool)
    (hmem : (users.lookup w).isSome = true) :
    callbackStep threshold users st w n ok =
      if shouldNotify threshold st w n && ok then
        ({ failureCount := Function.update st.failureCount w []
           lastNotificationTime := Function.update st.lastNotificationTime w (some n) }, true)
      else
        ({ st with
            failureCount := Function.update st.failureCount w (recordFailure (st.failureCount w) n) },
          false) := by
  cases h1 : isOverThreshold threshold (recordFailure (st.failureCount w) n) <;>
    cases h2 : gateOpen st w n <;> cases ok <;>
      simp [callbackStep, shouldNotify, lookup_isNone_false hmem, h1, h2]

/-- C2: `recordFailure` appends the new timestamp and prunes entries older
than the 300-second trailing window; `isOverThreshold` holds exactly when
the pruned record has at least `threshold` entries; once every previous
entry has aged out of the window, a fresh recording leaves a single entry
and the threshold predicate is false again (threshold at least 2, default
3). -/
theorem aggregator_window_threshold (threshold : Nat) (rec : List Int) (now laterNow : Int)
    (hth : 2 ≤ threshold) (hage : ∀ t ∈ rec, 300 < laterNow - t) :
    recordFailure rec now = (rec ++ [now]).filter (fun t => now - t ≤ 300)
    ∧ (isOverThreshold threshold rec = true ↔ threshold ≤ rec.length)
    ∧ recordFailure rec laterNow = [laterNow]
    ∧ isOverThreshold threshold (recordFailure rec laterNow) = false := by
  have h3 : recordFailure rec laterNow = [laterNow] := by
    unfold recordFailure
    rw [List.filter_append]
    have hnil : rec.filter (fun t => decide (laterNow - t ≤ 300)) = [] := by
      rw [List.filter_eq_nil_iff]
      intro t ht
      have := hage t ht
      simp only [decide_eq_true_eq]
      omega
    rw [hnil]
    simp
  refine ⟨rfl, by simp [isOverThreshold], h3, ?_⟩
  rw [h3]
  simp only [isOverThreshold, List.length_singleton, decide_eq_false_iff_not]
  omega

theorem aggregator_window_threshold_witness :
    recordFailure [0, 10, 20] 400 = [400]
    ∧ isOverThreshold 3 (recordFailure [0, 10, 20] 400) = false :=
  ⟨(aggregator_window_threshold 3 [0, 10, 20] 20 400 (by decide) (by decide)).2.2.1,
   (aggregator_window_threshold 3 [0, 10, 20] 20 400 (by decide) (by decide)).2.2.2⟩

/-- C3: for a monitored entity, the gate's decision holds exactly when the
entity is over the failure threshold after recording and either no prior
successful notification is recorded or the resend interval has elapsed;
a delivery is recorded exactly when the decision holds and the send
succeeds; on that success the gate stamps `now` as last-notified and
resets the failure record to empty, and otherwise it leaves the
last-notified map untouched and keeps only the pruned failure record (so
the threshold must be re-earned after a success). -/
theorem gate_decision_and_success_update (threshold : Nat) (users : List (String × String))
    (st : GateState) (wxid : String) (now : Int) (sendOk : Bool)
    (hmem : (users.lookup wxid).isSome = true) :
    (shouldNotify threshold st wxid now = true ↔
      (isOverThreshold threshold (recordFailure (st.failureCount wxid) now) = true ∧
        (st.lastNotificationTime wxid = none ∨
          ∃ last, st.lastNotificationTime wxid = some last ∧ 3600 ≤ now - last)))
    ∧ ((callbackStep threshold users st wxid now sendOk).2 = true ↔
        (shouldNotify threshold st wxid now = true ∧ sendOk = true))
    ∧ ((callbackStep threshold users st wxid now sendOk).2 = true →
        (callbackStep threshold users st wxid now sendOk).1.lastNotificationTime wxid = some now
        ∧ (callbackStep threshold users st wxid now sendOk).1.failureCount wxid = [])
    ∧ ((callbackStep threshold users st wxid now sendOk).2 = false →
        (callbackStep threshold users st wxid now sendOk).1.lastNotificationTime =
            st.lastNotificationTime
        ∧ (callbackStep threshold users st wxid now sendOk).1.failureCount wxid =
            recordFailure (st.failureCount wxid) now) := by
  rw [callbackStep_characterize threshold users st wxid now sendOk hmem]
  refine ⟨?_, ?_, ?_, ?_⟩
  · rw [shouldNotify, Bool.and_eq_true, gateOpen_iff]
  · cases hsn : shouldNotify threshold st wxid now <;> cases sendOk <;> simp
  · cases hsn : shouldNotify threshold st wxid now <;> cases sendOk <;>
      simp [Function.update_same]
  · cases hsn : shouldNotify threshold st wxid now <;> cases sendOk <;>
      simp [Function.update_same]

theorem gate_decision_and_success_update_witness :
    (callbackStep 1 [("wxid_a", "")] gateInit "wxid_a" 0 true).1.lastNotificationTime "wxid_a"
        = some 0
    ∧ (callbackStep 1 [("wxid_a", "")] gateInit "wxid_a" 0 true).1.failureCount "wxid_a" = [] :=
  (gate_decision_and_success_update 1 [("wxid_a", "")] gateInit "wxid_a" 0 true
      (by decide)).2.2.1 (by decide)

lemma callbackStep_not_mem (threshold : Nat) (users : List (String × String))
    (st : GateState) (w : String) (n : Int) (ok : Bool)
    (hmem : (users.lookup w).isSome = false) :
    callbackStep threshold users st w n ok = (st, false) := by
  unfold callbackStep
  cases hu : users.lookup w with
  | none => simp
  | some v => rw [hu] at hmem; cases hmem

/-- Stamping `last_notification_time` at a time the gate admits, with an
optional simultaneous gated delivery, preserves the invariant. -/
lemma goodLog_stamp (g : GateState) (log : List (String × Int × Bool))
    (fc : String → List Int) (w : String) (n : Int) (b : Bool)
    (hopen : gateOpen g w n = true) (hinv : GoodLog g log) :
    GoodLog ⟨fc, Function.update g.lastNotificationTime w (some n)⟩
      (if b then log ++ [(w, n, true)] else log) := by
  obtain ⟨hpw, hmem⟩ := hinv
  have hlast : ∀ l, g.lastNotificationTime w = some l → l + 3600 ≤ n := by
    intro l hl
    rcases (gateOpen_iff g w n).mp hopen with hnone | ⟨last, hlast, hge⟩
    · rw [hl] at hnone; cases hnone
    · rw [hl] at hlast
      injection hlast with he
      omega
  have hkey : ∀ t, (w, t, true) ∈ log → t + 3600 ≤ n := by
    intro t ht
    obtain ⟨l, hl, htl⟩ := hmem w t ht
    have := hlast l hl
    omega
  constructor
  · cases b with
    | false => simpa using hpw
    | true =>
      simp only [if_true]
      rw [List.pairwise_append]
      refine ⟨hpw, List.pairwise_singleton _ _, ?_⟩
      rintro ⟨pw, pt, pb⟩ hp q hq
      rw [List.mem_singleton] at hq
      subst hq
      intro hpt _ heq
      simp only at hpt heq
      subst hpt heq
      exact hkey pt hp
  · intro w' t hm
    have hold : (w', t, true) ∈ log → ∃ l,
        Function.update g.lastNotificationTime w (some n) w' = some l ∧ t ≤ l := by
      intro hmm
      obtain ⟨l, hl, htl⟩ := hmem w' t hmm
      by_cases hw : w' = w
      · subst hw
        refine ⟨n, Function.update_same _ _ _, ?_⟩
        have := hlast l hl
        omega
      · exact ⟨l, by rw [Function.update_noteq hw]; exact hl, htl⟩
    cases b with
    | false => exact hold (by simpa using hm)
    | true =>
      simp only [if_true, List.mem_append, List.mem_singleton] at hm
      rcases hm with hm | hm
      · exact hold hm
      · injection hm with h1 h2
        injection h2 with h2 _
        exact ⟨n, by rw [h1]; exact Function.update_same _ _ _, le_of_eq h2⟩

lemma goodLog_stamp_applied (g : GateState) (log : List (String × Int × Bool))
    (fc : String → List Int) (w : String) (n : Int) (b : Bool)
    (hopen : gateOpen g w n = true) (hinv : GoodLog g log) (newLog : List (String × Int × Bool))
    (hlog : newLog = if b then log ++ [(w, n, true)] else log) :
    GoodLog ⟨fc, Function.update g.lastNotificationTime w (some n)⟩ newLog := by
  rw [hlog]
  exact goodLog_stamp g log fc w n b hopen hinv

/-- Appending an ungated delivery preserves the invariant. -/
lemma goodLog_untagged (g : GateState) (log : List (String × Int × Bool)) (w : String)
    (n : Int) (hinv : GoodLog g log) : GoodLog g (log ++ [(w, n, false)]) := by
  obtain ⟨hpw, hmem⟩ := hinv
  constructor
  · rw [List.pairwise_append]
    refine ⟨hpw, List.pairwise_singleton _ _, ?_⟩
    intro p hp q hq
    rw [List.mem_singleton] at hq
    subst hq
    intro _ hqt _
    cases hqt
  · intro w' t hm
    rw [List.mem_append, List.mem_singleton] at hm
    rcases hm with hm | hm
    · exact hmem w' t hm
    · injection hm with h1 h2
      injection h2 with _ h3
      cases h3

/-- One `_process_heartbeat_failure` call (passive or probe path) preserves
the invariant: the gate state is untouched and any delivery is ungated. -/
lemma goodLog_processHeartbeatFailure (users : List (String × String)) (st : SysState)
    (w : String) (n : Int) (ok : Bool) (hinv : GoodLog st.gate st.log) :
    GoodLog (processHeartbeatFailure users false st w n ok).gate
      (processHeartbeatFailure users false st w n ok).log := by
  unfold processHeartbeatFailure
  split
  · exact goodLog_untagged st.gate st.log w n hinv
  · exact hinv

/-- One body of the API-failure loop preserves the invariant. -/
lemma goodLog_apiUserStep (users : List (String × String)) (n : Int) (ok : Bool)
    (st : SysState) (w : String) (hinv : GoodLog st.gate st.log) :
    GoodLog (apiUserStep users n ok st w).gate (apiUserStep users n ok st w).log := by
  unfold apiUserStep processHeartbeatFailure
  by_cases hopen : gateOpen st.gate w n = true
  · rw [if_pos hopen]
    by_cases hdel : ((users.lookup w).isSome && ok) = true
    · rw [if_pos hdel]
      exact goodLog_stamp_applied st.gate st.log st.gate.failureCount w n true hopen hinv _ rfl
    · rw [if_neg hdel]
      exact goodLog_stamp_applied st.gate st.log st.gate.failureCount w n false hopen hinv _ rfl
  · rw [if_neg hopen]
    exact hinv

/-- One firing of the gated log callback preserves the invariant. -/
lemma goodLog_logCallback (threshold : Nat) (users : List (String × String)) (st : SysState)
    (w : String) (n : Int) (ok : Bool) (hinv : GoodLog st.gate st.log) :
    GoodLog (sysStep threshold users st (SysEvent.logCallback w n ok)).gate
      (sysStep threshold users st (SysEvent.logCallback w n ok)).log := by
  have hstep : sysStep threshold users st (SysEvent.logCallback w n ok)
      = { gate := (callbackStep threshold users st.gate w n ok).1,
          log := if (callbackStep threshold users st.gate w n ok).2 then
              st.log ++ [(w, n, true)]
            else st.log } := rfl
  rw [hstep]
  by_cases hmem : (users.lookup w).isSome = true
  · rw [callbackStep_characterize threshold users st.gate w n ok hmem]
    by_cases hcond : (shouldNotify threshold st.gate w n && ok) = true
    · rw [if_pos hcond]
      have hopen : gateOpen st.gate w n = true := by
        have h1 := ((Bool.and_eq_true _ _).mp hcond).1
        exact ((Bool.and_eq_true _ _).mp h1).2
      exact goodLog_stamp_applied st.gate st.log (Function.update st.gate.failureCount w [])
        w n true hopen hinv _ rfl
    · rw [if_neg hcond]
      exact ⟨hinv.1, hinv.2⟩
  · have hmem' : (users.lookup w).isSome = false := by
      cases h : (users.lookup w).isSome
      · rfl
      · exact absurd h hmem
    rw [callbackStep_not_mem threshold users st.gate w n ok hmem']
    exact hinv

/-- The whole API-failure loop over the monitored users preserves the
invariant. -/
lemma goodLog_apiFold (users : List (String × String)) (n : Int) (ok : Bool) :
    ∀ (l : List (String × String)) (st : SysState), GoodLog st.gate st.log →
      GoodLog (l.foldl (fun acc p => apiUserStep users n ok acc p.1) st).gate
        (l.foldl (fun acc p => apiUserStep users n ok acc p.1) st).log := by
  intro l
  induction l with
  | nil => intro st h; exact h
  | cons p l ih =>
    intro st h
    exact ih _ (goodLog_apiUserStep users n ok st p.1 h)

/-- Every system event preserves the invariant, hence so does any run. -/
lemma goodLog_run (threshold : Nat) (users : List (String × String)) :
    ∀ (evs : List SysEvent) (st : SysState), GoodLog st.gate st.log →
      GoodLog ((evs.foldl (sysStep threshold users) st)).gate
        ((evs.foldl (sysStep threshold users) st)).log := by
  intro evs
  induction evs with
  | nil => intro st h; exact h
  | cons e evs ih =>
    intro st h
    refine ih _ ?_
    cases e with
    | passive w n ok => exact goodLog_processHeartbeatFailure users st w n ok h
    | probe w n ok => exact goodLog_processHeartbeatFailure users st w n ok h
    | logCallback w n ok => exact goodLog_logCallback threshold users st w n ok h
    | apiBad n ok => exact goodLog_apiFold users n ok users st h

/-- C1, amended: across any interleaving of probe-loop failures, passive
event ingestion, gated log-callback firings and API status checks, no two
successful deliveries made through an interval-gated path (the log
callback and the API check of `_check_api_heartbeat`) are recorded for the
same entity less than 3600 seconds apart; deliveries through the ungated
`_process_heartbeat_failure` path are exempt, as is the manual test path,
which never enters this log. -/
theorem gated_deliveries_respect_resend_interval (threshold : Nat)
    (users : List (String × String)) (evs : List SysEvent) :
    (sysRun threshold users evs).log.Pairwise gatedSpacedRel := by
  have hinit : GoodLog gateInit ([] : List (String × Int × Bool)) :=
    ⟨List.Pairwise.nil, by intro w t h; cases h⟩
  exact (goodLog_run threshold users evs { gate := gateInit, log := [] } hinit).1

/-- C1, counterexample to the claim as stated: two passive-ingestion events
for the monitored entity at times 0 and 1 both deliver successfully
(`_process_heartbeat_failure` imposes no interval gate), so two successful
deliveries for the same entity are recorded 1 second apart. -/
theorem ungated_deliveries_violate_resend_interval :
    ¬ (sysRun 3 [("wxid_a", "")]
        [SysEvent.passive "wxid_a" 0 true, SysEvent.passive "wxid_a" 1 true]).log.Pairwise
        spacedRel := by
  intro h
  have hl : (sysRun 3 [("wxid_a", "")]
      [SysEvent.passive "wxid_a" 0 true, SysEvent.passive "wxid_a" 1 true]).log
      = [("wxid_a", 0, false), ("wxid_a", 1, false)] := by decide
  rw [hl, List.pairwise_cons] at h
  have h2 := h.1 ("wxid_a", 1, false) (by simp) rfl
  simp only at h2
  omega

/-- One step of the retry loop, unfolded. -/
lemma sendGo_succ (responses : Nat → PushResp) (retryInterval : Int) (i r : Nat) :
    sendGo responses retryInterval i (r + 1)
      = match responses i with
        | PushResp.exn =>
          (match r with
           | 0 => (false, 1, [])
           | _ + 1 =>
             ((sendGo responses retryInterval (i + 1) r).1,
              (sendGo responses retryInterval (i + 1) r).2.1 + 1,
              retryInterval :: (sendGo responses retryInterval (i + 1) r).2.2))
        | PushResp.json c msg =>
          if c = 200 then (true, 1, [])
          else if isTokenError msg then (false, 1, [])
          else
            (match r with
             | 0 => (false, 1, [])
             | _ + 1 =>
               ((sendGo responses retryInterval (i + 1) r).1,
                (sendGo responses retryInterval (i + 1) r).2.1 + 1,
                retryInterval :: (sendGo responses retryInterval (i + 1) r).2.2)) := by
  unfold sendGo
  cases responses i <;> cases r <;> rfl

/-- A terminal token-error response ends the retry loop at once. -/
lemma sendGo_token_error (responses : Nat → PushResp) (retryInterval : Int) (i r : Nat)
    (hr : 1 ≤ r) (c : Int) (msg : String) (hresp : responses i = PushResp.json c msg)
    (hc : c ≠ 200) (htok : isTokenError msg = true) :
    sendGo responses retryInterval i r = (false, 1, []) := by
  cases r with
  | zero => omega
  | succ r' =>
    rw [sendGo_succ, hresp]
    simp only []
    rw [if_neg hc, if_pos htok]

/-- When every reachable attempt is transient, the loop performs them all
with one `retryInterval` wait between consecutive attempts and fails. -/
lemma sendGo_all_transient (responses : Nat → PushResp) (retryInterval : Int) :
    ∀ (r i : Nat), 1 ≤ r → (∀ j, j < r → isTransient (responses (i + j)) = true) →
      sendGo responses retryInterval i r
        = (false, r, List.replicate (r - 1) retryInterval) := by
  intro r
  induction r with
  | zero => intro i h; omega
  | succ r' ih =>
    intro i _ htr
    have h0 : isTransient (responses i) = true := by
      have := htr 0 (by omega)
      simpa using this
    have hcase : ∀ c msg, responses i = PushResp.json c msg →
        ¬c = 200 ∧ ¬isTokenError msg = true := by
      intro c msg hresp
      rw [hresp] at h0
      simp only [isTransient, Bool.and_eq_true, decide_eq_true_eq,
        Bool.not_eq_true'] at h0
      exact ⟨h0.1, by simp [h0.2]⟩
    cases r' with
    | zero =>
      cases hresp : responses i with
      | exn =>
        rw [sendGo_succ, hresp]
        rfl
      | json c msg =>
        obtain ⟨hc, htok⟩ := hcase c msg hresp
        rw [sendGo_succ, hresp]
        simp only []
        rw [if_neg hc, if_neg htok]
        rfl
    | succ r'' =>
      have hnext := ih (i + 1) (by omega) (fun j hj => by
        have e : i + 1 + j = i + (j + 1) := by omega
        rw [e]
        exact htr (j + 1) (by omega))
      have hgoal :
          ((sendGo responses retryInterval (i + 1) (r'' + 1)).1,
            (sendGo responses retryInterval (i + 1) (r'' + 1)).2.1 + 1,
            retryInterval :: (sendGo responses retryInterval (i + 1) (r'' + 1)).2.2)
          = (false, r'' + 1 + 1, List.replicate (r'' + 1 + 1 - 1) retryInterval) := by
        rw [hnext]
        simp [List.replicate_succ]
      cases hresp : responses i with
      | exn =>
        rw [sendGo_succ, hresp]
        exact hgoal
      | json c msg =>
        obtain ⟨hc, htok⟩ := hcase c msg hresp
        rw [sendGo_succ, hresp]
        simp only []
        rw [if_neg hc, if_neg htok]
        exact hgoal

/-- The loop only reports success when some attempt within the bound
returned a body with code 200. -/
lemma sendGo_success (responses : Nat → PushResp) (retryInterval : Int) :
    ∀ (r i : Nat), (sendGo responses retryInterval i r).1 = true →
      ∃ j, j < r ∧ ∃ msg, responses (i + j) = PushResp.json 200 msg := by
  intro r
  induction r with
  | zero => intro i h; simp [sendGo] at h
  | succ r' ih =>
    intro i h
    rw [sendGo_succ] at h
    have hnext : ∀ hn : (match r' with
          | 0 => ((false : Bool), (1 : Nat), ([] : List Int))
          | _ + 1 =>
            ((sendGo responses retryInterval (i + 1) r').1,
             (sendGo responses retryInterval (i + 1) r').2.1 + 1,
             retryInterval :: (sendGo responses retryInterval (i + 1) r').2.2)).1 = true,
        ∃ j, j < r' + 1 ∧ ∃ msg, responses (i + j) = PushResp.json 200 msg := by
      intro hn
      cases r' with
      | zero => simp at hn
      | succ r'' =>
        obtain ⟨j, hj, msg, hmsg⟩ := ih (i + 1) hn
        refine ⟨j + 1, by omega, msg, ?_⟩
        have e : i + (j + 1) = i + 1 + j := by omega
        rw [e]
        exact hmsg
    cases hresp : responses i with
    | exn =>
      rw [hresp] at h
      exact hnext h
    | json c msg =>
      rw [hresp] at h
      simp only [] at h
      by_cases hc : c = 200
      · subst hc
        exact ⟨0, by omega, msg, by simpa using hresp⟩
      · rw [if_neg hc] at h
        by_cases htok : isTokenError msg = true
        · rw [if_pos htok] at h
          simp at h
        · rw [if_neg htok] at h
          exact hnext h

/-- C4: with a configured token and at least one allowed attempt, the
delivery client performs exactly one HTTP attempt and fails without waiting
when the first response carries the recognised invalid-token payload; it
performs all `retryTimes` attempts separated by `retryInterval` waits and
then fails when every response is a transport error or an unrecognised
non-200 body; and it reports success only when some attempt within the
bound returned a structured body with code 200. -/
theorem delivery_retry_policy (token : String) (retryTimes : Nat) (retryInterval : Int)
    (responses : Nat → PushResp) (htoken : token ≠ "") (hrt : 1 ≤ retryTimes) :
    (∀ c msg, responses 0 = PushResp.json c msg → c ≠ 200 → isTokenError msg = true →
        sendPushplusNotification token retryTimes retryInterval responses = (false, 1, []))
    ∧ ((∀ j, j < retryTimes → isTransient (responses j) = true) →
        sendPushplusNotification token retryTimes retryInterval responses
          = (false, retryTimes, List.replicate (retryTimes - 1) retryInterval))
    ∧ ((sendPushplusNotification token retryTimes retryInterval responses).1 = true →
        ∃ j, j < retryTimes ∧ ∃ msg, responses j = PushResp.json 200 msg) := by
  unfold sendPushplusNotification
  rw [if_neg htoken]
  refine ⟨?_, ?_, ?_⟩
  · intro c msg hresp hc htok
    exact sendGo_token_error responses retryInterval 0 retryTimes hrt c msg hresp hc htok
  · intro htr
    exact sendGo_all_transient responses retryInterval retryTimes 0 hrt
      (fun j hj => by simpa using htr j hj)
  · intro h
    obtain ⟨j, hj, msg, hmsg⟩ := sendGo_success responses retryInterval retryTimes 0 h
    exact ⟨j, hj, msg, by simpa using hmsg⟩

theorem delivery_retry_policy_witness :
    sendPushplusNotification "tok" 3 60 (fun _ => PushResp.json 500 "token 与用户不匹配")
      = (false, 1, [])
    ∧ sendPushplusNotification "tok" 3 60 (fun _ => PushResp.exn)
      = (false, 3, List.replicate 2 60) :=
  ⟨(delivery_retry_policy "tok" 3 60 (fun _ => PushResp.json 500 "token 与用户不匹配")
      (by decide) (by decide)).1 500 "token 与用户不匹配" rfl (by decide) (by decide),
   (delivery_retry_policy "tok" 3 60 (fun _ => PushResp.exn)
      (by decide) (by decide)).2.1 (fun j hj => rfl)⟩

/-- C5, counterexample to the claim's fallback order: with the primary
entity configured as `"wxid_b"` and exactly one monitored entity
`"wxid_a"`, an event without an extractable identifier is attributed to the
primary entity, not to the single monitored entity as the claimed order
requires. -/
theorem fallback_order_counterexample :
    attributeSystemEvent "wxid_b" [("wxid_a", "")] none = some "wxid_b"
    ∧ attributeSpecOrder "wxid_b" [("wxid_a", "")] none = some "wxid_a"
    ∧ attributeSystemEvent "wxid_b" [("wxid_a", "")] none
        ≠ attributeSpecOrder "wxid_b" [("wxid_a", "")] none := by
  refine ⟨by decide, by decide, by decide⟩

/-- C5, amended: when no identifier is extractable the fallback order is the
reverse of the claimed one — first the globally-configured primary entity
(`current_wxid`, when non-empty; in the fetch-failure block additionally
required to be monitored itself), then the single currently-monitored
entity when exactly one exists, otherwise the event is discarded with no
signal; an extractable identifier always wins. -/
theorem fallback_order_characterization (currentWxid : String)
    (users : List (String × String)) :
    (∀ w, attributeSystemEvent currentWxid users (some w) = some w)
    ∧ (currentWxid ≠ "" → attributeSystemEvent currentWxid users none = some currentWxid)
    ∧ (∀ p, currentWxid = "" → users = [p] →
        attributeSystemEvent currentWxid users none = some p.1)
    ∧ (currentWxid = "" → users.length ≠ 1 →
        attributeSystemEvent currentWxid users none = none)
    ∧ (currentWxid ≠ "" → (users.lookup currentWxid).isSome = true →
        attributeFetchFail currentWxid users = some currentWxid)
    ∧ (∀ p, (currentWxid = "" ∨ (users.lookup currentWxid).isSome = false) → users = [p] →
        attributeFetchFail currentWxid users = some p.1)
    ∧ ((currentWxid = "" ∨ (users.lookup currentWxid).isSome = false) → users.length ≠ 1 →
        attributeFetchFail currentWxid users = none) := by
  have husers : ∀ (motive : Option String), users.length ≠ 1 →
      (match users with
        | [p] => some p.1
        | _ => motive) = motive := by
    intro motive hlen
    match users with
    | [] => rfl
    | [p] => exact absurd rfl hlen
    | p :: q :: rest => rfl
  refine ⟨?_, ?_, ?_, ?_, ?_, ?_, ?_⟩
  · intro w
    rfl
  · intro hcw
    unfold attributeSystemEvent
    rw [if_pos hcw]
  · intro p hcw hu
    subst hu
    unfold attributeSystemEvent
    rw [if_neg (by simp [hcw])]
  · intro hcw hlen
    unfold attributeSystemEvent
    rw [if_neg (by simp [hcw])]
    exact husers none hlen
  · intro hcw hmem
    unfold attributeFetchFail
    rw [if_pos (by simp [hcw, hmem])]
  · intro p hor hu
    subst hu
    unfold attributeFetchFail
    rcases hor with h | h
    · rw [if_neg (by simp [h])]
    · rw [if_neg (by simp [h])]
  · intro hor hlen
    unfold attributeFetchFail
    rcases hor with h | h
    · rw [if_neg (by simp [h])]
      exact husers none hlen
    · rw [if_neg (by simp [h])]
      exact husers none hlen

theorem fallback_order_characterization_witness :
    attributeSystemEvent "wxid_b" [("wxid_a", "")] none = some "wxid_b"
    ∧ attributeSystemEvent "" [("wxid_a", "")] none = some "wxid_a"
    ∧ attributeSystemEvent "" [] none = none
    ∧ attributeFetchFail "" [("wxid_a", "")] = some "wxid_a" :=
  ⟨(fallback_order_characterization "wxid_b" [("wxid_a", "")]).2.1 (by decide),
   (fallback_order_characterization "" [("wxid_a", "")]).2.2.1 ("wxid_a", "") rfl rfl,
   (fallback_order_characterization "" []).2.2.2.1 rfl (by decide),
   (fallback_order_characterization "" [("wxid_a", "")]).2.2.2.2.2.1 ("wxid_a", "")
     (Or.inl rfl) rfl⟩

/-- C7, counterexample to the exact-body claim: the code strips whitespace
before comparing, so a 200 response whose body is `"ok\n"` produces no
failure signal although the body is not exactly the literal token compared
case-insensitively. -/
theorem poll_strip_counterexample :
    producesFailureSignal (PollObservation.httpResp 200 "ok\n") = false
    ∧ specPollFailed (PollObservation.httpResp 200 "ok\n") = true
    ∧ producesFailureSignal (PollObservation.httpResp 200 "ok\n")
        ≠ specPollFailed (PollObservation.httpResp 200 "ok\n") := by
  refine ⟨by decide, by decide, by decide⟩

/-- C7, amended: the poll produces a failure signal exactly when the HTTP
status is not 200 or the whitespace-stripped body is not the literal token
"ok" compared case-insensitively; a transport or timeout error is
classified unknown, produces no failure signal, and is never classified
failed. -/
theorem poll_classification (status : Nat) (body : String) :
    (producesFailureSignal (PollObservation.httpResp status body) = true ↔
      (status ≠ 200 ∨ pyLower (pyStrip body) ≠ "ok"))
    ∧ producesFailureSignal PollObservation.transportError = false
    ∧ classifyPoll PollObservation.transportError = PollResult.unknown
    ∧ classifyPoll PollObservation.transportError ≠ PollResult.failed := by
  refine ⟨?_, rfl, rfl, by decide⟩
  unfold producesFailureSignal classifyPoll
  simp only []
  by_cases hs : status = 200
  · subst hs
    by_cases hb : pyLower (pyStrip body) ≠ "ok"
    · rw [if_pos rfl, if_pos hb]
      simp [hb]
    · rw [if_pos rfl, if_neg hb]
      simp [hb]
  · rw [if_neg hs]
    simp [hs]

theorem poll_classification_witness :
    producesFailureSignal (PollObservation.httpResp 500 "ok") = true
    ∧ producesFailureSignal (PollObservation.httpResp 200 "OK") = false := by
  constructor
  · exact (poll_classification 500 "ok").1.mpr (Or.inl (by decide))
  · have h := (poll_classification 200 "OK").1
    cases hres : producesFailureSignal (PollObservation.httpResp 200 "OK")
    · rfl
    · rcases h.mp hres with h2 | h2
      · exact absurd rfl h2
      · exact absurd (by decide) h2

lemma lookup_filter_ne {β : Type} (l : List (String × β)) (k : String) :
    (l.filter (fun p => p.1 ≠ k)).lookup k = none := by
  induction l with
  | nil => rfl
  | cons p l ih =>
    by_cases h : p.1 = k
    · simp only [List.filter_cons]
      rw [if_neg (by simp [h])]
      exact ih
    · simp only [List.filter_cons]
      rw [if_pos (by simp [h])]
      simp only [List.lookup]
      have hbeq : (k == p.1) = false := by
        have hne : ¬k = p.1 := fun he => h he.symm
        simp [hne]
      rw [hbeq]
      exact ih

lemma contains_filter_ne (l : List String) (k : String) :
    (l.filter (fun w => w ≠ k)).contains k = false := by
  induction l with
  | nil => rfl
  | cons w l ih =>
    by_cases h : w = k
    · simp only [List.filter_cons]
      rw [if_neg (by simp [h])]
      exact ih
    · simp only [List.filter_cons]
      rw [if_pos (by simp [h])]
      have hne : ¬k = w := fun he => h he.symm
      simp [List.contains_cons, hne, ih]

/-- C6, counterexample: removing the monitored entity `"wxid_a"` leaves both
its last-notified timestamp (`notification_sent`) and its failure record
(`heartbeat_failures`) behind, so not all per-entity aggregator and gate
state is removed. -/
theorem unmonitor_leaves_gate_state_behind :
    ¬ (((handleUnmonitorCommand c6State "sms_unmonitor wxid_a" "adm" "adm"
            true).1.notificationSent.lookup "wxid_a" = none)
       ∧ (((handleUnmonitorCommand c6State "sms_unmonitor wxid_a" "adm" "adm"
            true).1.heartbeatFailures.lookup "wxid_a") = none)) := by
  decide

/-- C6, amended: the remove-entity command deletes the membership-registry
entry and the offline flag for the removed entity — after it the entity is
no longer monitored, and membership in the registry is exactly what
monitoring means — but the per-entity last-notified timestamp and failure
record are retained, not garbage-collected. -/
theorem unmonitor_removes_membership_only (st : PluginState)
    (content sender fromWxid wxid : String)
    (hen : st.enable = true)
    (hpre : pyStartsWith (pyStrip content) "sms_unmonitor " = true)
    (hsplit : pySplit (pyStrip content) = ["sms_unmonitor", wxid])
    (hmem : (st.users.lookup wxid).isSome = true) :
    ((handleUnmonitorCommand st content sender fromWxid true).1.users.lookup wxid = none)
    ∧ ((handleUnmonitorCommand st content sender fromWxid true).1.offlineUsers.contains wxid
        = false)
    ∧ isMonitored (handleUnmonitorCommand st content sender fromWxid true).1 wxid = false
    ∧ (handleUnmonitorCommand st content sender fromWxid true).1.notificationSent
        = st.notificationSent
    ∧ (handleUnmonitorCommand st content sender fromWxid true).1.heartbeatFailures
        = st.heartbeatFailures := by
  have hcmd : handleUnmonitorCommand st content sender fromWxid true
      = ({ st with
            users := st.users.filter (fun p => p.1 ≠ wxid)
            offlineUsers := st.offlineUsers.filter (fun w => w ≠ wxid) },
          [(fromWxid, "已成功将用户 " ++ wxid ++ " 从监控列表中移除")]) := by
    unfold handleUnmonitorCommand
    rw [hen]
    simp only [Bool.true_eq_false, if_false]
    rw [hpre]
    simp only [Bool.true_eq_false, if_false]
    rw [hsplit]
    simp only []
    rw [if_neg (by simp [hmem])]
  rw [hcmd]
  refine ⟨lookup_filter_ne st.users wxid, contains_filter_ne st.offlineUsers wxid, ?_, rfl, rfl⟩
  unfold isMonitored
  rw [lookup_filter_ne st.users wxid]
  rfl

theorem unmonitor_removes_membership_only_witness :
    ((handleUnmonitorCommand c6State "sms_unmonitor wxid_a" "adm" "adm"
        true).1.users.lookup "wxid_a" = none)
    ∧ isMonitored (handleUnmonitorCommand c6State "sms_unmonitor wxid_a" "adm" "adm"
        true).1 "wxid_a" = false :=
  ⟨(unmonitor_removes_membership_only c6State "sms_unmonitor wxid_a" "adm" "adm" "wxid_a"
      rfl (by decide) (by decide) (by decide)).1,
   (unmonitor_removes_membership_only c6State "sms_unmonitor wxid_a" "adm" "adm" "wxid_a"
      rfl (by decide) (by decide) (by decide)).2.2.1⟩

/-- C8: with the plugin enabled, every administrative command handler —
test notification, set wxid, reload, status, add entity, change channel,
remove entity, set template — replies with the rejection text and leaves
the plugin state unchanged when the authorization check for the sender
fails. -/
theorem unauthorized_commands_rejected (st : PluginState)
    (content sender fromWxid : String) (sendOk : Bool)
    (loadCfg : PluginState → PluginState) (fmtTime : Int → String)
    (timeStr dateStr hourStr botName : String)
    (hen : st.enable = true) :
    (pyStartsWith (pyStrip content) "sms_test" = true →
      handleTestCommand st content sender fromWxid false sendOk
        = (st, [(fromWxid, rejectText)]))
    ∧ (pyStartsWith (pyStrip content) "sms_set_wxid " = true →
      handleSetWxidCommand st content sender fromWxid false sendOk
        = (st, [(fromWxid, rejectText)]))
    ∧ (pyStrip content = "sms_reload" →
      handleReloadCommand st content sender fromWxid false loadCfg
        = (st, [(fromWxid, rejectText)]))
    ∧ (pyStrip content = "sms_status" →
      handleStatusCommand st content sender fromWxid false fmtTime
        = (st, [(fromWxid, rejectText)]))
    ∧ (pyStartsWith (pyStrip content) "sms_monitor " = true →
      handleMonitorCommand st content sender fromWxid false
        = Except.ok (st, [(fromWxid, rejectText)]))
    ∧ (pyStartsWith (pyStrip content) "sms_channel " = true →
      handleChannelCommand st content sender fromWxid false
        = (st, [(fromWxid, rejectText)]))
    ∧ (pyStartsWith (pyStrip content) "sms_unmonitor " = true →
      handleUnmonitorCommand st content sender fromWxid false
        = (st, [(fromWxid, rejectText)]))
    ∧ (pyStartsWith (pyStrip content) "sms_template " = true →
      handleTemplateCommand st content sender fromWxid false timeStr dateStr hourStr botName
        = (st, [(fromWxid, rejectText)])) := by
  refine ⟨?_, ?_, ?_, ?_, ?_, ?_, ?_, ?_⟩
  · intro hc
    unfold handleTestCommand
    rw [hen]
    simp only [Bool.true_eq_false, if_false]
    rw [hc]
    simp
  · intro hc
    unfold handleSetWxidCommand
    rw [hen]
    simp only [Bool.true_eq_false, if_false]
    rw [hc]
    simp
  · intro hc
    unfold handleReloadCommand
    rw [hen]
    simp only [Bool.true_eq_false, if_false]
    rw [if_neg (by simp [hc])]
    simp
  · intro hc
    unfold handleStatusCommand
    rw [hen]
    simp only [Bool.true_eq_false, if_false]
    rw [if_neg (by simp [hc])]
    simp
  · intro hc
    unfold handleMonitorCommand
    rw [hen]
    simp only [Bool.true_eq_false, if_false]
    rw [hc]
    simp
  · intro hc
    unfold handleChannelCommand
    rw [hen]
    simp only [Bool.true_eq_false, if_false]
    rw [hc]
    simp
  · intro hc
    unfold handleUnmonitorCommand
    rw [hen]
    simp only [Bool.true_eq_false, if_false]
    rw [hc]
    simp
  · intro hc
    unfold handleTemplateCommand
    rw [hen]
    simp only [Bool.true_eq_false, if_false]
    rw [hc]
    simp

theorem unauthorized_commands_rejected_witness :
    handleTestCommand enabledState "sms_test" "someone" "room" false true
      = (enabledState, [("room", rejectText)])
    ∧ handleMonitorCommand enabledState "sms_monitor wxid_a tel" "someone" "room" false
      = Except.ok (enabledState, [("room", rejectText)])
    ∧ handleReloadCommand enabledState "sms_reload" "someone" "room" false id
      = (enabledState, [("room", rejectText)]) :=
  ⟨(unauthorized_commands_rejected enabledState "sms_test" "someone" "room" true id
      (fun _ => "") "" "" "" "" rfl).1 (by decide),
   (unauthorized_commands_rejected enabledState "sms_monitor wxid_a tel" "someone" "room" true id
      (fun _ => "") "" "" "" "" rfl).2.2.2.2.1 (by decide),
   (unauthorized_commands_rejected enabledState "sms_reload" "someone" "room" true id
      (fun _ => "") "" "" "" "" rfl).2.2.1 (by decide)⟩

/-- C9: the manual test notification is purely observational — it returns
the state unchanged (in particular the failure records and last-notified
timestamps), its request and outcome do not depend on the aggregator or
gate state (`notification_sent`, `heartbeat_failures`, `offline_users`),
no threshold or resend-interval check guards it, and it succeeds exactly
on a response body with code 200. -/
theorem test_message_frame (st : PluginState) (ns : List (String × Int))
    (hf : List (String × List Int)) (ou : List String)
    (wxid timeStr dateStr hourStr botName : String) (respCode : Option Int) :
    (sendTestMessage st wxid timeStr dateStr hourStr botName respCode).1 = st
    ∧ (sendTestMessage
        { st with notificationSent := ns, heartbeatFailures := hf, offlineUsers := ou }
        wxid timeStr dateStr hourStr botName respCode).2
      = (sendTestMessage st wxid timeStr dateStr hourStr botName respCode).2
    ∧ ((sendTestMessage st wxid timeStr dateStr hourStr botName respCode).2.2 = true ↔
        respCode = some 200) := by
  refine ⟨rfl, rfl, ?_⟩
  simp [sendTestMessage]

theorem test_message_frame_witness :
    (sendTestMessage c6State "wxid_a" "t" "d" "h" "bot" (some 200)).1 = c6State
    ∧ (sendTestMessage c6State "wxid_a" "t" "d" "h" "bot" (some 200)).2.2 = true :=
  ⟨(test_message_frame c6State [] [] [] "wxid_a" "t" "d" "h" "bot" (some 200)).1,
   (test_message_frame c6State [] [] [] "wxid_a" "t" "d" "h" "bot" (some 200)).2.2.mpr rfl⟩

/-- C10: the add-entity handler's arity guard only rejects messages with
fewer than two whitespace-separated tokens, but its body reads the third
token; on `sms_monitor <wxid>` — exactly one argument — the guard passes
and the `parts[2]` access is out of bounds, so the handler raises an
uncaught IndexError and never sends the usage reply. -/
theorem monitor_single_argument_index_error (st : PluginState)
    (content sender fromWxid wxid : String)
    (hen : st.enable = true)
    (hpre : pyStartsWith (pyStrip content) "sms_monitor " = true)
    (hsplit : pySplit (pyStrip content) = ["sms_monitor", wxid]) :
    handleMonitorCommand st content sender fromWxid true = Except.error "IndexError" := by
  unfold handleMonitorCommand
  rw [hen]
  simp only [Bool.true_eq_false, if_false]
  rw [hpre]
  simp only [Bool.true_eq_false, if_false]
  rw [hsplit]
  rfl

theorem monitor_single_argument_index_error_witness :
    handleMonitorCommand enabledState "sms_monitor wxid_test" "adm" "adm" true
      = Except.error "IndexError" :=
  monitor_single_argument_index_error enabledState "sms_monitor wxid_test" "adm" "adm"
    "wxid_test" rfl (by decide) (by decide)

end SMSNotifier
